import Mathlib

/-!
Shallow embedding of `src/convert_units.py` (a metric/imperial unit
conversion CLI) and verification of its specification.

Python floats are modelled as exact rationals (`ℚ`); decimal literals of
the source are written as exact fractions (e.g. `0.0254` as
`254/10000`).  Unit symbols are `String`s; Python's
`str.lower()` is modelled by mapping `Char.toLower` over the characters
(the source only uses ASCII symbols).  Python `dict` tables become
association lists looked up with `List.lookup`; a raised `ValueError`
becomes the `Except.error` branch carrying the message.
-/

namespace ConvertUnits

/-- Model of Python `str.lower()`: lowercase every character. -/
def str_lower (s : String) : String :=
  ⟨s.data.map Char.toLower⟩

/-- Length conversion factors (to meters), `UnitConverter.LENGTH_UNITS`. -/
def LENGTH_UNITS : List (String × ℚ) :=
  [("mm", 1/1000), ("cm", 1/100), ("m", 1), ("km", 1000),
   ("in", 254/10000), ("ft", 3048/10000), ("yd", 9144/10000), ("mi", 160934/100)]

/-- Weight conversion factors (to kilograms), `UnitConverter.WEIGHT_UNITS`. -/
def WEIGHT_UNITS : List (String × ℚ) :=
  [("g", 1/1000), ("kg", 1), ("t", 1000),
   ("oz", 283495/10000000), ("lb", 453592/1000000), ("st", 635029/100000), ("ton", 907185/1000)]

/-- Volume conversion factors (to liters), `UnitConverter.VOLUME_UNITS`. -/
def VOLUME_UNITS : List (String × ℚ) :=
  [("ml", 1/1000), ("l", 1), ("kl", 1000),
   ("fl_oz", 295735/10000000), ("cup", 236588/1000000), ("pt", 473176/1000000),
   ("qt", 946353/1000000), ("gal", 378541/100000)]

/-- `UnitConverter.convert_length`: check both symbols are registered,
convert to meters, then to the target unit. -/
def convert_length (value : ℚ) (from_unit to_unit : String) : Except String ℚ :=
  match LENGTH_UNITS.lookup from_unit with
  | none => .error ("Unknown length unit: " ++ from_unit)
  | some fs =>
    match LENGTH_UNITS.lookup to_unit with
    | none => .error ("Unknown length unit: " ++ to_unit)
    | some ts => .ok (value * fs / ts)

/-- `UnitConverter.convert_weight`: check both symbols are registered,
convert to kilograms, then to the target unit. -/
def convert_weight (value : ℚ) (from_unit to_unit : String) : Except String ℚ :=
  match WEIGHT_UNITS.lookup from_unit with
  | none => .error ("Unknown weight unit: " ++ from_unit)
  | some fs =>
    match WEIGHT_UNITS.lookup to_unit with
    | none => .error ("Unknown weight unit: " ++ to_unit)
    | some ts => .ok (value * fs / ts)

/-- `UnitConverter.convert_volume`: check both symbols are registered,
convert to liters, then to the target unit. -/
def convert_volume (value : ℚ) (from_unit to_unit : String) : Except String ℚ :=
  match VOLUME_UNITS.lookup from_unit with
  | none => .error ("Unknown volume unit: " ++ from_unit)
  | some fs =>
    match VOLUME_UNITS.lookup to_unit with
    | none => .error ("Unknown volume unit: " ++ to_unit)
    | some ts => .ok (value * fs / ts)

/-- Second half of `UnitConverter.convert_temperature`: convert a Celsius
value to the (already lowercased) target unit. -/
def tempFromCelsius (celsius : ℚ) (tu : String) : Except String ℚ :=
  if tu ∈ ["c", "celsius"] then .ok celsius
  else if tu ∈ ["f", "fahrenheit"] then .ok (celsius * 9 / 5 + 32)
  else if tu ∈ ["k", "kelvin"] then .ok (celsius + 27315/100)
  else .error ("Unknown temperature unit: " ++ tu)

/-- `UnitConverter.convert_temperature`: lowercase both symbols, convert
the input to Celsius, then from Celsius to the target unit. -/
def convert_temperature (value : ℚ) (from_unit to_unit : String) : Except String ℚ :=
  let fu := str_lower from_unit
  let tu := str_lower to_unit
  if fu ∈ ["c", "celsius"] then tempFromCelsius value tu
  else if fu ∈ ["f", "fahrenheit"] then tempFromCelsius ((value - 32) * 5 / 9) tu
  else if fu ∈ ["k", "kelvin"] then tempFromCelsius (value - 27315/100) tu
  else .error ("Unknown temperature unit: " ++ fu)

/-- The unit categories named by `UnitConverter.get_category`. -/
inductive Category where
  | length
  | weight
  | volume
  | temperature
deriving DecidableEq

/-- The temperature synonym list from `UnitConverter.get_category`. -/
def tempSyms : List String := ["c", "celsius", "f", "fahrenheit", "k", "kelvin"]

/-- `UnitConverter.get_category`: classify a symbol by lowercasing it and
checking the length, weight, volume tables and the temperature synonyms
in that order; `none` when nothing matches. -/
def get_category (unit : String) : Option Category :=
  let ul := str_lower unit
  if (LENGTH_UNITS.lookup ul).isSome then some .length
  else if (WEIGHT_UNITS.lookup ul).isSome then some .weight
  else if (VOLUME_UNITS.lookup ul).isSome then some .volume
  else if ul ∈ tempSyms then some .temperature
  else none

/-- The observable outcomes of `main` on a conversion request. -/
inductive Output where
  | result (v : ℚ)
  | unknownUnit (u : String)
  | categoryMismatch (u1 u2 : String)
  | valueError (msg : String)
deriving DecidableEq

/-- The numeric result carried by an `Output`, if any. -/
def Output.numeric : Output → Option ℚ
  | .result v => some v
  | _ => none

/-- The conversion path of `main` (`src/convert_units.py:165-189`):
resolve the category of `from_unit` (unknown-unit error when it has
none), reject a `to_unit` of a different category, then dispatch to the
category's converter — the linear converters receive lowercased symbols,
the temperature converter the originals. -/
def main_run (value : ℚ) (from_unit to_unit : String) : Output :=
  match get_category from_unit with
  | none => .unknownUnit from_unit
  | some cat =>
    if get_category to_unit = some cat then
      match cat with
      | .length =>
        match convert_length value (str_lower from_unit) (str_lower to_unit) with
        | .ok v => .result v
        | .error e => .valueError e
      | .weight =>
        match convert_weight value (str_lower from_unit) (str_lower to_unit) with
        | .ok v => .result v
        | .error e => .valueError e
      | .volume =>
        match convert_volume value (str_lower from_unit) (str_lower to_unit) with
        | .ok v => .result v
        | .error e => .valueError e
      | .temperature =>
        match convert_temperature value from_unit to_unit with
        | .ok v => .result v
        | .error e => .valueError e
    else .categoryMismatch from_unit to_unit

/-! ### Helper lemmas about the tables and lowercasing -/

/-- A successful association-list lookup returns a stored pair. -/
theorem lookup_mem {l : List (String × ℚ)} {k : String} {b : ℚ}
    (h : l.lookup k = some b) : (k, b) ∈ l := by
  induction l with
  | nil => simp at h
  | cons p t ih =>
    obtain ⟨k2, b2⟩ := p
    rw [List.lookup_cons] at h
    by_cases hk : k == k2
    · rw [hk] at h
      obtain rfl : k = k2 := by simpa using hk
      obtain rfl : b2 = b := by simpa using h
      exact List.mem_cons_self _ _
    · rw [Bool.not_eq_true] at hk
      rw [hk] at h
      exact List.mem_cons_of_mem _ (ih h)

/-- Every scale factor in the length table is strictly positive. -/
theorem LENGTH_UNITS_pos : ∀ p ∈ LENGTH_UNITS, 0 < p.2 := by
  norm_num [LENGTH_UNITS]

/-- Every scale factor in the weight table is strictly positive. -/
theorem WEIGHT_UNITS_pos : ∀ p ∈ WEIGHT_UNITS, 0 < p.2 := by
  norm_num [WEIGHT_UNITS]

/-- Every scale factor in the volume table is strictly positive. -/
theorem VOLUME_UNITS_pos : ∀ p ∈ VOLUME_UNITS, 0 < p.2 := by
  norm_num [VOLUME_UNITS]

/-- A scale factor looked up in the length table is strictly positive. -/
theorem lookup_length_pos {u : String} {s : ℚ}
    (h : LENGTH_UNITS.lookup u = some s) : 0 < s :=
  LENGTH_UNITS_pos (u, s) (lookup_mem h)

/-- A scale factor looked up in the weight table is strictly positive. -/
theorem lookup_weight_pos {u : String} {s : ℚ}
    (h : WEIGHT_UNITS.lookup u = some s) : 0 < s :=
  WEIGHT_UNITS_pos (u, s) (lookup_mem h)

/-- A scale factor looked up in the volume table is strictly positive. -/
theorem lookup_volume_pos {u : String} {s : ℚ}
    (h : VOLUME_UNITS.lookup u = some s) : 0 < s :=
  VOLUME_UNITS_pos (u, s) (lookup_mem h)

/-- `Char.ofNat` of a valid codepoint round-trips through `Char.toNat`. -/
theorem toNat_ofNat_valid {n : Nat} (h : n.isValidChar) :
    (Char.ofNat n).toNat = n := by
  rw [Char.ofNat, dif_pos h]
  rfl

/-- Lowercasing a character twice is the same as lowercasing it once. -/
theorem char_toLower_idem (c : Char) : c.toLower.toLower = c.toLower := by
  simp only [Char.toLower]
  by_cases h : c.toNat ≥ 65 ∧ c.toNat ≤ 90
  · rw [if_pos h]
    have hv : (c.toNat + 32).isValidChar := Or.inl (by omega)
    rw [toNat_ofNat_valid hv, if_neg (by omega)]
  · rw [if_neg h, if_neg h]

/-- Lowercasing a string twice is the same as lowercasing it once. -/
theorem str_lower_idem (s : String) : str_lower (str_lower s) = str_lower s := by
  show String.mk ((s.data.map Char.toLower).map Char.toLower) =
    String.mk (s.data.map Char.toLower)
  rw [List.map_map]
  exact congrArg String.mk
    (List.map_congr_left fun c _ => char_toLower_idem c)

/-- The resolver only looks at the lowercased symbol. -/
theorem get_category_str_lower (u : String) :
    get_category (str_lower u) = get_category u := by
  unfold get_category
  rw [str_lower_idem]

/-- The temperature converter only looks at the lowercased symbols. -/
theorem convert_temperature_str_lower (v : ℚ) (fu tu : String) :
    convert_temperature v (str_lower fu) (str_lower tu) =
      convert_temperature v fu tu := by
  unfold convert_temperature
  rw [str_lower_idem, str_lower_idem]

/-- Resolver characterization: `length` answers. -/
theorem gc_length {u : String} :
    get_category u = some .length ↔
      (LENGTH_UNITS.lookup (str_lower u)).isSome = true := by
  simp only [get_category]
  split_ifs <;> simp_all

/-- Resolver characterization: `weight` answers. -/
theorem gc_weight {u : String} :
    get_category u = some .weight ↔
      (¬(LENGTH_UNITS.lookup (str_lower u)).isSome = true ∧
        (WEIGHT_UNITS.lookup (str_lower u)).isSome = true) := by
  simp only [get_category]
  split_ifs <;> simp_all

/-- Resolver characterization: `volume` answers. -/
theorem gc_volume {u : String} :
    get_category u = some .volume ↔
      (¬(LENGTH_UNITS.lookup (str_lower u)).isSome = true ∧
        ¬(WEIGHT_UNITS.lookup (str_lower u)).isSome = true ∧
        (VOLUME_UNITS.lookup (str_lower u)).isSome = true) := by
  simp only [get_category]
  split_ifs <;> simp_all

/-- Resolver characterization: `temperature` answers. -/
theorem gc_temperature {u : String} :
    get_category u = some .temperature ↔
      (¬(LENGTH_UNITS.lookup (str_lower u)).isSome = true ∧
        ¬(WEIGHT_UNITS.lookup (str_lower u)).isSome = true ∧
        ¬(VOLUME_UNITS.lookup (str_lower u)).isSome = true ∧
        str_lower u ∈ tempSyms) := by
  simp only [get_category]
  split_ifs <;> simp_all

/-- Resolver characterization: `none` answers. -/
theorem gc_none {u : String} :
    get_category u = none ↔
      (¬(LENGTH_UNITS.lookup (str_lower u)).isSome = true ∧
        ¬(WEIGHT_UNITS.lookup (str_lower u)).isSome = true ∧
        ¬(VOLUME_UNITS.lookup (str_lower u)).isSome = true ∧
        str_lower u ∉ tempSyms) := by
  simp only [get_category]
  split_ifs <;> simp_all

/-- Inversion: a successful length conversion comes from two registered
scale factors via the base-unit formula. -/
theorem convert_length_ok {v w : ℚ} {u1 u2 : String}
    (h : convert_length v u1 u2 = .ok w) :
    ∃ s1 s2, LENGTH_UNITS.lookup u1 = some s1 ∧
      LENGTH_UNITS.lookup u2 = some s2 ∧ w = v * s1 / s2 := by
  unfold convert_length at h
  cases h1 : LENGTH_UNITS.lookup u1 with
  | none => rw [h1] at h; simp at h
  | some s1 =>
    rw [h1] at h
    cases h2 : LENGTH_UNITS.lookup u2 with
    | none => rw [h2] at h; simp at h
    | some s2 =>
      rw [h2] at h
      simp only [Except.ok.injEq] at h
      exact ⟨s1, s2, rfl, rfl, h.symm⟩

/-- Inversion: a successful weight conversion comes from two registered
scale factors via the base-unit formula. -/
theorem convert_weight_ok {v w : ℚ} {u1 u2 : String}
    (h : convert_weight v u1 u2 = .ok w) :
    ∃ s1 s2, WEIGHT_UNITS.lookup u1 = some s1 ∧
      WEIGHT_UNITS.lookup u2 = some s2 ∧ w = v * s1 / s2 := by
  unfold convert_weight at h
  cases h1 : WEIGHT_UNITS.lookup u1 with
  | none => rw [h1] at h; simp at h
  | some s1 =>
    rw [h1] at h
    cases h2 : WEIGHT_UNITS.lookup u2 with
    | none => rw [h2] at h; simp at h
    | some s2 =>
      rw [h2] at h
      simp only [Except.ok.injEq] at h
      exact ⟨s1, s2, rfl, rfl, h.symm⟩

/-- Inversion: a successful volume conversion comes from two registered
scale factors via the base-unit formula. -/
theorem convert_volume_ok {v w : ℚ} {u1 u2 : String}
    (h : convert_volume v u1 u2 = .ok w) :
    ∃ s1 s2, VOLUME_UNITS.lookup u1 = some s1 ∧
      VOLUME_UNITS.lookup u2 = some s2 ∧ w = v * s1 / s2 := by
  unfold convert_volume at h
  cases h1 : VOLUME_UNITS.lookup u1 with
  | none => rw [h1] at h; simp at h
  | some s1 =>
    rw [h1] at h
    cases h2 : VOLUME_UNITS.lookup u2 with
    | none => rw [h2] at h; simp at h
    | some s2 =>
      rw [h2] at h
      simp only [Except.ok.injEq] at h
      exact ⟨s1, s2, rfl, rfl, h.symm⟩

/-- When both symbols are registered, the length conversion applies the
base-unit formula. -/
theorem convert_length_of_lookup {u1 u2 : String} {s1 s2 : ℚ}
    (h1 : LENGTH_UNITS.lookup u1 = some s1)
    (h2 : LENGTH_UNITS.lookup u2 = some s2) (v : ℚ) :
    convert_length v u1 u2 = .ok (v * s1 / s2) := by
  simp [convert_length, h1, h2]

/-- When both symbols are registered, the weight conversion applies the
base-unit formula. -/
theorem convert_weight_of_lookup {u1 u2 : String} {s1 s2 : ℚ}
    (h1 : WEIGHT_UNITS.lookup u1 = some s1)
    (h2 : WEIGHT_UNITS.lookup u2 = some s2) (v : ℚ) :
    convert_weight v u1 u2 = .ok (v * s1 / s2) := by
  simp [convert_weight, h1, h2]

/-- When both symbols are registered, the volume conversion applies the
base-unit formula. -/
theorem convert_volume_of_lookup {u1 u2 : String} {s1 s2 : ℚ}
    (h1 : VOLUME_UNITS.lookup u1 = some s1)
    (h2 : VOLUME_UNITS.lookup u2 = some s2) (v : ℚ) :
    convert_volume v u1 u2 = .ok (v * s1 / s2) := by
  simp [convert_volume, h1, h2]

/-! ### The claims -/

/-- C1: for every value `v` and every pair of unit symbols registered in
the same linear category table (length, weight, or volume), the
corresponding convert function returns `v * scale(u1) / scale(u2)`, where
`scale` is the category's table entry. -/
theorem C1_linear_formula (v : ℚ) (u1 u2 : String) :
    (∀ s1 s2, LENGTH_UNITS.lookup u1 = some s1 →
      LENGTH_UNITS.lookup u2 = some s2 →
      convert_length v u1 u2 = .ok (v * s1 / s2)) ∧
    (∀ s1 s2, WEIGHT_UNITS.lookup u1 = some s1 →
      WEIGHT_UNITS.lookup u2 = some s2 →
      convert_weight v u1 u2 = .ok (v * s1 / s2)) ∧
    (∀ s1 s2, VOLUME_UNITS.lookup u1 = some s1 →
      VOLUME_UNITS.lookup u2 = some s2 →
      convert_volume v u1 u2 = .ok (v * s1 / s2)) := by
  exact ⟨fun s1 s2 h1 h2 => convert_length_of_lookup h1 h2 v,
    fun s1 s2 h1 h2 => convert_weight_of_lookup h1 h2 v,
    fun s1 s2 h1 h2 => convert_volume_of_lookup h1 h2 v⟩

/-- Witness for C1 at `v = 2`, `u1 = "km"`, `u2 = "m"`. -/
theorem C1_linear_formula_witness :
    convert_length 2 "km" "m" = .ok (2 * 1000 / 1) :=
  (C1_linear_formula 2 "km" "m").1 1000 1 rfl rfl

/-- Spec formula: value of a recognized (lowercased) temperature symbol
converted to Celsius. -/
def spec_toCelsius (u : String) (v : ℚ) : ℚ :=
  if u ∈ ["c", "celsius"] then v
  else if u ∈ ["f", "fahrenheit"] then (v - 32) * 5 / 9
  else v - 27315/100

/-- Spec formula: Celsius value converted to a recognized (lowercased)
temperature symbol. -/
def spec_fromCelsius (u : String) (c : ℚ) : ℚ :=
  if u ∈ ["c", "celsius"] then c
  else if u ∈ ["f", "fahrenheit"] then c * 9 / 5 + 32
  else c + 27315/100

/-- C2: for every value and every pair of recognized temperature symbols
(case-insensitive members of the c/f/k synonym sets),
`convert_temperature` computes the result in two steps with Celsius as
the pivot, using the spec's formulas. -/
theorem C2_temperature_pivot (v : ℚ) (fu tu : String)
    (hf : str_lower fu ∈ tempSyms) (ht : str_lower tu ∈ tempSyms) :
    convert_temperature v fu tu =
      .ok (spec_fromCelsius (str_lower tu) (spec_toCelsius (str_lower fu) v)) := by
  simp only [tempSyms, List.mem_cons, List.not_mem_nil, or_false] at hf ht
  rcases hf with h | h | h | h | h | h <;>
    rcases ht with h2 | h2 | h2 | h2 | h2 | h2 <;>
      simp [convert_temperature, tempFromCelsius, spec_toCelsius,
        spec_fromCelsius, h, h2]

/-- Witness for C2 at `v = 50`, `fu = "F"`, `tu = "K"`. -/
theorem C2_temperature_pivot_witness :
    convert_temperature 50 "F" "K" =
      .ok (spec_fromCelsius (str_lower "K") (spec_toCelsius (str_lower "F") 50)) :=
  C2_temperature_pivot 50 "F" "K" (by decide) (by decide)

/-- C3: for unit symbols registered in the same linear category and any
positive value, converting and then converting back recovers the value
within `1e-6` relative tolerance (in this exact-arithmetic model the
round trip is exact, hence within the tolerance). -/
theorem C3_roundtrip (v : ℚ) (u1 u2 : String) (hv : 0 < v) :
    (∀ w, convert_length v u1 u2 = .ok w →
      ∃ w2, convert_length w u2 u1 = .ok w2 ∧ |w2 - v| ≤ v * (1/1000000)) ∧
    (∀ w, convert_weight v u1 u2 = .ok w →
      ∃ w2, convert_weight w u2 u1 = .ok w2 ∧ |w2 - v| ≤ v * (1/1000000)) ∧
    (∀ w, convert_volume v u1 u2 = .ok w →
      ∃ w2, convert_volume w u2 u1 = .ok w2 ∧ |w2 - v| ≤ v * (1/1000000)) := by
  refine ⟨?_, ?_, ?_⟩ <;> intro w hw
  · obtain ⟨s1, s2, h1, h2, rfl⟩ := convert_length_ok hw
    have hs1 := (lookup_length_pos h1).ne'
    have hs2 := (lookup_length_pos h2).ne'
    refine ⟨v * s1 / s2 * s2 / s1, (convert_length_of_lookup h2 h1 _), ?_⟩
    rw [div_mul_cancel₀ _ hs2, mul_div_cancel_right₀ _ hs1]
    simp
    positivity
  · obtain ⟨s1, s2, h1, h2, rfl⟩ := convert_weight_ok hw
    have hs1 := (lookup_weight_pos h1).ne'
    have hs2 := (lookup_weight_pos h2).ne'
    refine ⟨v * s1 / s2 * s2 / s1, (convert_weight_of_lookup h2 h1 _), ?_⟩
    rw [div_mul_cancel₀ _ hs2, mul_div_cancel_right₀ _ hs1]
    simp
    positivity
  · obtain ⟨s1, s2, h1, h2, rfl⟩ := convert_volume_ok hw
    have hs1 := (lookup_volume_pos h1).ne'
    have hs2 := (lookup_volume_pos h2).ne'
    refine ⟨v * s1 / s2 * s2 / s1, (convert_volume_of_lookup h2 h1 _), ?_⟩
    rw [div_mul_cancel₀ _ hs2, mul_div_cancel_right₀ _ hs1]
    simp
    positivity

/-- Witness for C3 at `v = 1`, `u1 = "km"`, `u2 = "m"`. -/
theorem C3_roundtrip_witness :
    ∃ w2, convert_length (1 * 1000 / 1) "m" "km" = .ok w2 ∧
      |w2 - 1| ≤ 1 * (1/1000000) :=
  (C3_roundtrip 1 "km" "m" one_pos).1 (1 * 1000 / 1) rfl

/-- Converting a temperature to its own unit is the identity. -/
theorem convert_temperature_self (v : ℚ) (u : String)
    (h : str_lower u ∈ tempSyms) : convert_temperature v u u = .ok v := by
  simp only [tempSyms, List.mem_cons, List.not_mem_nil, or_false] at h
  rcases h with h | h | h | h | h | h <;>
    simp [convert_temperature, tempFromCelsius, h]

/-- C4: converting a value from any recognized unit symbol (linear or
temperature, in any letter case) to the same symbol returns the value
exactly. -/
theorem C4_self_identity (v : ℚ) (u : String)
    (h : (get_category u).isSome = true) :
    main_run v u u = .result v := by
  rw [Option.isSome_iff_exists] at h
  obtain ⟨cat, hc⟩ := h
  cases cat with
  | length =>
    obtain ⟨s, hs⟩ := Option.isSome_iff_exists.mp (gc_length.mp hc)
    have hne := (lookup_length_pos hs).ne'
    simp [main_run, hc, convert_length_of_lookup hs hs v,
      mul_div_cancel_right₀ v hne]
  | weight =>
    obtain ⟨s, hs⟩ := Option.isSome_iff_exists.mp (gc_weight.mp hc).2
    have hne := (lookup_weight_pos hs).ne'
    simp [main_run, hc, convert_weight_of_lookup hs hs v,
      mul_div_cancel_right₀ v hne]
  | volume =>
    obtain ⟨s, hs⟩ := Option.isSome_iff_exists.mp (gc_volume.mp hc).2.2
    have hne := (lookup_volume_pos hs).ne'
    simp [main_run, hc, convert_volume_of_lookup hs hs v,
      mul_div_cancel_right₀ v hne]
  | temperature =>
    have hm := (gc_temperature.mp hc).2.2.2
    simp [main_run, hc, convert_temperature_self v u hm]

/-- Witness for C4 at `v = 7`, `u = "KM"`. -/
theorem C4_self_identity_witness : main_run 7 "KM" "KM" = .result 7 :=
  C4_self_identity 7 "KM" rfl

/-- C5: when `from_unit` resolves to a category and `to_unit` resolves to
a different category (or to none), `main` reports a category mismatch and
produces no numeric result; and a `from_unit` that resolves to no
category is reported as unknown before any dispatch. -/
theorem C5_mismatch (v : ℚ) (fu tu : String) (c : Category)
    (h1 : get_category fu = some c) (h2 : get_category tu ≠ some c) :
    main_run v fu tu = .categoryMismatch fu tu ∧
    (main_run v fu tu).numeric = none ∧
    (∀ fu2, get_category fu2 = none → main_run v fu2 tu = .unknownUnit fu2) := by
  refine ⟨?_, ?_, ?_⟩
  · simp [main_run, h1, h2]
  · simp [main_run, h1, h2, Output.numeric]
  · intro fu2 h
    simp [main_run, h]

/-- Witness for C5 at `v = 10`, `fu = "km"`, `tu = "lb"`. -/
theorem C5_mismatch_witness :
    main_run 10 "km" "lb" = .categoryMismatch "km" "lb" ∧
    (main_run 10 "km" "lb").numeric = none ∧
    (∀ fu2, get_category fu2 = none → main_run 10 fu2 "lb" = .unknownUnit fu2) :=
  C5_mismatch 10 "km" "lb" .length rfl (by decide)

/-- C6: the resolver depends only on the lowercased symbol, checks the
length, weight and volume tables in that priority order, then the
temperature synonym set, and returns `none` when the symbol matches no
table. -/
theorem C6_resolver (u : String) :
    (∀ w, str_lower w = str_lower u → get_category w = get_category u) ∧
    (get_category u = some .length ↔
      (LENGTH_UNITS.lookup (str_lower u)).isSome = true) ∧
    (get_category u = some .weight ↔
      (¬(LENGTH_UNITS.lookup (str_lower u)).isSome = true ∧
        (WEIGHT_UNITS.lookup (str_lower u)).isSome = true)) ∧
    (get_category u = some .volume ↔
      (¬(LENGTH_UNITS.lookup (str_lower u)).isSome = true ∧
        ¬(WEIGHT_UNITS.lookup (str_lower u)).isSome = true ∧
        (VOLUME_UNITS.lookup (str_lower u)).isSome = true)) ∧
    (get_category u = some .temperature ↔
      (¬(LENGTH_UNITS.lookup (str_lower u)).isSome = true ∧
        ¬(WEIGHT_UNITS.lookup (str_lower u)).isSome = true ∧
        ¬(VOLUME_UNITS.lookup (str_lower u)).isSome = true ∧
        str_lower u ∈ tempSyms)) ∧
    (get_category u = none ↔
      (¬(LENGTH_UNITS.lookup (str_lower u)).isSome = true ∧
        ¬(WEIGHT_UNITS.lookup (str_lower u)).isSome = true ∧
        ¬(VOLUME_UNITS.lookup (str_lower u)).isSome = true ∧
        str_lower u ∉ tempSyms)) := by
  refine ⟨?_, gc_length, gc_weight, gc_volume, gc_temperature, gc_none⟩
  intro w hw
  unfold get_category
  rw [hw]

/-- Witness for C6 at `u = "KM"` and `w = "Km"`. -/
theorem C6_resolver_witness :
    get_category "Km" = get_category "KM" ∧
    (get_category "KM" = some .length ↔
      (LENGTH_UNITS.lookup (str_lower "KM")).isSome = true) :=
  ⟨(C6_resolver "KM").1 "Km" rfl, (C6_resolver "KM").2.1⟩

/-- C7: `convert_temperature` fails (with an unknown-unit error) exactly
when at least one of its symbols, compared case-insensitively, is outside
the three recognized temperature synonym sets; the validation is done by
the converter itself. -/
theorem C7_temp_validation (v : ℚ) (fu tu : String) :
    (∃ e, convert_temperature v fu tu = .error e) ↔
      (str_lower fu ∉ tempSyms ∨ str_lower tu ∉ tempSyms) := by
  simp only [convert_temperature, tempFromCelsius, tempSyms, List.mem_cons,
    List.not_mem_nil, or_false]
  split_ifs <;> simp_all <;> tauto

/-- C8: unit matching is case-insensitive — a symbol and its lowercase
form resolve to the same category, and a request made with lowercased
symbols produces the same numeric result as the original request. -/
theorem C8_case_insensitive (v : ℚ) (fu tu : String) :
    get_category (str_lower fu) = get_category fu ∧
    (main_run v (str_lower fu) (str_lower tu)).numeric =
      (main_run v fu tu).numeric := by
  refine ⟨get_category_str_lower fu, ?_⟩
  unfold main_run
  rw [get_category_str_lower fu, get_category_str_lower tu,
    str_lower_idem fu, str_lower_idem tu, convert_temperature_str_lower]
  cases h : get_category fu with
  | none => rfl
  | some cat =>
    by_cases h2 : get_category tu = some cat <;> simp [h2, Output.numeric]

/-- C9: the four symbol sets (length, weight, volume, temperature) are
pairwise disjoint, so each registered symbol has exactly one category;
and all stored scale factors are strictly positive. -/
theorem C9_invariants :
    (∀ u ∈ LENGTH_UNITS.map Prod.fst, u ∉ WEIGHT_UNITS.map Prod.fst) ∧
    (∀ u ∈ LENGTH_UNITS.map Prod.fst, u ∉ VOLUME_UNITS.map Prod.fst) ∧
    (∀ u ∈ LENGTH_UNITS.map Prod.fst, u ∉ tempSyms) ∧
    (∀ u ∈ WEIGHT_UNITS.map Prod.fst, u ∉ VOLUME_UNITS.map Prod.fst) ∧
    (∀ u ∈ WEIGHT_UNITS.map Prod.fst, u ∉ tempSyms) ∧
    (∀ u ∈ VOLUME_UNITS.map Prod.fst, u ∉ tempSyms) ∧
    (∀ p ∈ LENGTH_UNITS, 0 < p.2) ∧
    (∀ p ∈ WEIGHT_UNITS, 0 < p.2) ∧
    (∀ p ∈ VOLUME_UNITS, 0 < p.2) := by
  refine ⟨?_, ?_, ?_, ?_, ?_, ?_,
    LENGTH_UNITS_pos, WEIGHT_UNITS_pos, VOLUME_UNITS_pos⟩ <;> decide

/-- Witness for C9 at `u = "km"`: a length symbol is not a weight symbol. -/
theorem C9_invariants_witness : "km" ∉ WEIGHT_UNITS.map Prod.fst :=
  C9_invariants.1 "km" (by decide)

/-- C10: whenever the resolver maps two lowercase symbols to the same
linear category, the corresponding convert function reaches neither
unknown-unit branch, divides by a strictly positive scale factor, and
returns a numeric result. -/
theorem C10_linear_safety (v : ℚ) (u1 u2 : String)
    (e1 : str_lower u1 = u1) (e2 : str_lower u2 = u2) :
    (get_category u1 = some .length → get_category u2 = some .length →
      ∃ s1 s2, LENGTH_UNITS.lookup u1 = some s1 ∧
        LENGTH_UNITS.lookup u2 = some s2 ∧ 0 < s2 ∧
        convert_length v u1 u2 = .ok (v * s1 / s2)) ∧
    (get_category u1 = some .weight → get_category u2 = some .weight →
      ∃ s1 s2, WEIGHT_UNITS.lookup u1 = some s1 ∧
        WEIGHT_UNITS.lookup u2 = some s2 ∧ 0 < s2 ∧
        convert_weight v u1 u2 = .ok (v * s1 / s2)) ∧
    (get_category u1 = some .volume → get_category u2 = some .volume →
      ∃ s1 s2, VOLUME_UNITS.lookup u1 = some s1 ∧
        VOLUME_UNITS.lookup u2 = some s2 ∧ 0 < s2 ∧
        convert_volume v u1 u2 = .ok (v * s1 / s2)) := by
  refine ⟨fun h1 h2 => ?_, fun h1 h2 => ?_, fun h1 h2 => ?_⟩
  · obtain ⟨s1, hs1⟩ := Option.isSome_iff_exists.mp (gc_length.mp h1)
    obtain ⟨s2, hs2⟩ := Option.isSome_iff_exists.mp (gc_length.mp h2)
    rw [e1] at hs1
    rw [e2] at hs2
    exact ⟨s1, s2, hs1, hs2, lookup_length_pos hs2,
      convert_length_of_lookup hs1 hs2 v⟩
  · obtain ⟨s1, hs1⟩ := Option.isSome_iff_exists.mp (gc_weight.mp h1).2
    obtain ⟨s2, hs2⟩ := Option.isSome_iff_exists.mp (gc_weight.mp h2).2
    rw [e1] at hs1
    rw [e2] at hs2
    exact ⟨s1, s2, hs1, hs2, lookup_weight_pos hs2,
      convert_weight_of_lookup hs1 hs2 v⟩
  · obtain ⟨s1, hs1⟩ := Option.isSome_iff_exists.mp (gc_volume.mp h1).2.2
    obtain ⟨s2, hs2⟩ := Option.isSome_iff_exists.mp (gc_volume.mp h2).2.2
    rw [e1] at hs1
    rw [e2] at hs2
    exact ⟨s1, s2, hs1, hs2, lookup_volume_pos hs2,
      convert_volume_of_lookup hs1 hs2 v⟩

/-- Witness for C10 at `v = 3`, `u1 = "km"`, `u2 = "mi"`. -/
theorem C10_linear_safety_witness :
    ∃ s1 s2, LENGTH_UNITS.lookup "km" = some s1 ∧
      LENGTH_UNITS.lookup "mi" = some s2 ∧ 0 < s2 ∧
      convert_length 3 "km" "mi" = .ok (3 * s1 / s2) :=
  (C10_linear_safety 3 "km" "mi" rfl rfl).1 rfl rfl

end ConvertUnits
